import Mathlib

/-!
Formal model of `finder.py` (subdomain_finder CLI), a shallow embedding of the
program's data model and operations, together with theorems settling the
specification's claims against it.

Conventions:
* Python strings are Lean `String`; `str.strip()` is `pyStrip`; the Python
  substring test `needle in hay` is `pyContains hay needle`.
* Python floats used only as timeout values are modelled as `Rat`.
* Exceptions are modelled with `Except PyErr`; `sys.exit(n)` and uncaught
  exceptions are distinguished by `Halt`.
* The DNS runtime is an oracle `net : String → Rat → DnsOutcome` giving, for a
  queried name and an effective socket timeout, the outcome of one blocking
  `socket.gethostbyname_ex` call performed under that timeout.
-/

/-- Python exceptions relevant to the program. `typeError f k` stands for the
`TypeError` Python raises when calling function `f` with an unexpected keyword
argument `k`. -/
inductive PyErr : Type
  | typeError (fname kwarg : String)
  | valueError (msg : String)
  deriving DecidableEq, Repr

/-- The formal parameter names of `print_message` (finder.py line 18):
`def print_message(message, verbose=False, is_verbose_msg=False)`. -/
def print_message_params : List String := ["message", "verbose", "is_verbose_msg"]

/-- Python call semantics: a keyword argument named `k` binds successfully iff
`k` is one of the callee's formal parameters; otherwise the call raises
`TypeError` before the function body runs. -/
def bindsKeyword (params : List String) (k : String) : Bool := params.contains k

/-- One line written by the program: to standard output or to standard error. -/
inductive OutLine : Type
  | out (s : String)
  | err (s : String)
  deriving DecidableEq, Repr

/-- Body of `print_message` (finder.py lines 18-24): verbose-tagged messages go
to stderr only when verbose; all other messages go to stdout. -/
def print_message (message : String) (verbose : Bool) (is_verbose_msg : Bool) :
    List OutLine :=
  if is_verbose_msg then
    if verbose then [.err ("[*] " ++ message)] else []
  else
    [.out message]

/-- The stdout lines among a list of written lines. -/
def outsOf (ls : List OutLine) : List String :=
  ls.filterMap fun l => match l with | .out s => some s | .err _ => none

/-- ASCII whitespace as stripped by Python `str.strip()`. -/
def isPyWS (c : Char) : Bool :=
  c = ' ' || c = '\t' || c = '\n' || c = '\r' || c = '\x0b' || c = '\x0c'

/-- Python `str.strip()`: remove leading and trailing whitespace. -/
def pyStrip (s : String) : String :=
  String.mk (((s.data.dropWhile isPyWS).reverse.dropWhile isPyWS).reverse)

/-- Test `leadOf n h`: the character list `n` is an initial segment of `h`. -/
def leadOf : List Char → List Char → Bool
  | [], _ => true
  | _ :: _, [] => false
  | a :: as, b :: bs => a == b && leadOf as bs

/-- Test `occurs n h`: the character list `n` occurs contiguously inside `h`. -/
def occurs (n : List Char) : List Char → Bool
  | [] => n.isEmpty
  | c :: h => leadOf n (c :: h) || occurs n h

/-- Python substring test: `needle in hay`. -/
def pyContains (hay needle : String) : Bool := occurs needle.data hay.data

/-- Python `s.startswith(p)`. -/
def pyStartsWith (s p : String) : Bool := leadOf p.data s.data

/-- Split a character list at each newline character (helper for `pySplitNl`). -/
def splitNlChars : List Char → List (List Char)
  | [] => [[]]
  | c :: cs =>
      match splitNlChars cs with
      | [] => [[]]
      | p :: ps => if c = '\n' then [] :: p :: ps else (c :: p) :: ps

/-- Python `s.split('\n')`: the pieces of `s` between newline characters
(one piece more than there are newlines; `''.split('\n') == ['']`). -/
def pySplitNl (s : String) : List String := (splitNlChars s.data).map String.mk

/-- Python `set.add` observed through insertion order: append the element iff
it is not already present. -/
def setAdd (s : List String) (x : String) : List String :=
  if x ∈ s then s else s ++ [x]

/-- Adding every element of `xs` to the set `s` in order. -/
def setAddAll (s : List String) (xs : List String) : List String :=
  xs.foldl setAdd s

/-- Outcome of one blocking `socket.gethostbyname_ex` call. A successful call
returns `(hostname, aliaslist, ipaddrlist)` with at least one address, modelled
as the first address plus the rest. -/
inductive DnsOutcome : Type
  | resolved (ip0 : String) (rest : List String)
  | gaierror
  | timedout
  | error (detail : String)
  deriving DecidableEq, Repr

/-- External activity the program performs, recorded as a trace. -/
inductive ExtAction : Type
  | dnsLookup (name : String)
  | httpGet (url : String)
  deriving DecidableEq, Repr

/-- Model of `resolve_subdomain` (finder.py lines 26-42). The call
`socket.gethostbyname_ex(subdomain_to_check)` passes no timeout: its behaviour
is governed by the process-wide default socket timeout `globalTimeout`
(set by `socket.setdefaulttimeout` in `main`, line 179). The `timeout`
parameter is bound but never read in the body. Returns the resolved name
(or `none`) together with the diagnostic lines written. -/
def resolve_subdomain (net : String → Rat → DnsOutcome) (globalTimeout : Rat)
    (subdomain_to_check : String) (timeout : Rat) (verbose : Bool) :
    Option String × List OutLine :=
  match net subdomain_to_check globalTimeout with
  | .resolved ip0 _ =>
      (some subdomain_to_check,
        print_message ("Resolved: " ++ subdomain_to_check ++ " -> " ++ ip0) verbose true)
  | .gaierror =>
      (none, print_message ("No record for: " ++ subdomain_to_check) verbose true)
  | .timedout =>
      (none, print_message ("Timeout resolving: " ++ subdomain_to_check) verbose true)
  | .error e =>
      (none, print_message ("Error resolving " ++ subdomain_to_check ++ ": " ++ e) verbose true)

/-- Shared state of the brute-force run: the deduplication set
`found_subdomains_set`, the output `results_list` (finder.py lines 65-66), and
the bookkeeping of which membership checks observed absence. The Python set is
observed only through membership, modelled as a list of its elements. -/
structure SinkSt : Type where
  found_subdomains_set : List String
  results_list : List String
  sawAbsent : List Nat
  deriving DecidableEq, Repr

/-- The empty sink, as created at the start of `brute_force_subdomains`. -/
def SinkSt.init : SinkSt := ⟨[], [], []⟩

/-- One atomic step of the offer sequence a worker runs for a resolved
subdomain (finder.py lines 54-56), naming the offer by its index into the list
of offered subdomains:
* `check i` — evaluate `subdomain not in found_subdomains_set` (line 54);
* `add i`   — `found_subdomains_set.add(subdomain)` (line 55), executed only
  when that worker's check observed absence;
* `append i` — `results_list.append(subdomain)` (line 56), likewise.
Between any two of a worker's steps, steps of other workers may run: a run of
the threaded program is an interleaving of these events. -/
inductive Ev : Type
  | check (i : Nat)
  | add (i : Nat)
  | append (i : Nat)
  deriving DecidableEq, Repr

/-- The subdomain of offer `i` (out-of-range indices never occur in a valid
schedule). -/
def offAt (offs : List String) (i : Nat) : String := offs.getD i ""

/-- The offer index an event belongs to. -/
def Ev.idx : Ev → Nat
  | .check i => i
  | .add i => i
  | .append i => i

/-- Effect of one event on the sink state, where `offs` lists the offered
subdomains by index. -/
def evStep (offs : List String) (st : SinkSt) : Ev → SinkSt
  | .check i =>
      if offAt offs i ∈ st.found_subdomains_set then st
      else { st with sawAbsent := i :: st.sawAbsent }
  | .add i =>
      if i ∈ st.sawAbsent then
        { st with found_subdomains_set :=
            if offAt offs i ∈ st.found_subdomains_set then st.found_subdomains_set
            else offAt offs i :: st.found_subdomains_set }
      else st
  | .append i =>
      if i ∈ st.sawAbsent then
        { st with results_list := st.results_list ++ [offAt offs i] }
      else st

/-- Run a schedule of offer events against the sink, starting empty. -/
def execOffers (offs : List String) (evs : List Ev) : SinkSt :=
  evs.foldl (evStep offs) SinkSt.init

/-- A schedule is valid for `m` offers when the events of each offer
`i < m` are exactly `check i`, `add i`, `append i` in that order, and no event
names an offer out of range. Every interleaved run of the worker threads on
`m` offers follows such a schedule. -/
def validSched (m : Nat) (evs : List Ev) : Bool :=
  (List.range m).all
    (fun i => evs.filter (fun e => e.idx = i) = ([.check i, .add i, .append i] : List Ev)) &&
  evs.all (fun e => e.idx < m)

/-- Events of offers `k, k+1, …, k+m-1`, each offer's three events run to
completion before the next offer starts. -/
def serialTriples (k m : Nat) : List Ev :=
  match m with
  | 0 => []
  | m + 1 => .check k :: .add k :: .append k :: serialTriples (k + 1) m

/-- The serial (non-interleaved) schedule of `m` offers. -/
def serialSched (m : Nat) : List Ev := serialTriples 0 m

/-- Sequential denotation of the offers `k, …, k+m-1` run one after another:
the reference against which the serial schedule is proved equal. -/
def seqRun (offs : List String) (k m : Nat) (st : SinkSt) : SinkSt :=
  match m with
  | 0 => st
  | m + 1 =>
      let s := offAt offs k
      let st' :=
        if s ∈ st.found_subdomains_set then st
        else { found_subdomains_set := s :: st.found_subdomains_set,
               results_list := st.results_list ++ [s],
               sawAbsent := k :: st.sawAbsent }
      seqRun offs (k + 1) m st'

/-- Type `FsFile` models what opening the wordlist path can yield: the file's lines,
`FileNotFoundError`, or another read error. -/
inductive FsFile : Type
  | lines (ls : List String)
  | missing
  | unreadable (detail : String)

/-- Wordlist loading (finder.py line 73):
`words = [line.strip() for line in f if line.strip()]` — each line trimmed,
blank lines dropped, duplicates kept, file order preserved. -/
def loadWords (ls : List String) : List String :=
  ls.filterMap fun line =>
    let w := pyStrip line
    if w ≠ "" then some w else none

/-- Model of `brute_force_subdomains` (finder.py lines 60-101), over a DNS oracle `net`,
the process-global socket timeout `globalTimeout`, a filesystem oracle `fs`,
and a schedule `evs` fixing how the workers' offer events interleave. Returns
the value of the Python call (its result list, or the exception it raises)
together with the trace of DNS lookups performed.

* A missing or unreadable wordlist is caught (lines 79-84), but the handler
  calls `print_message(..., file=sys.stderr)`; `print_message` has no `file`
  parameter, so the call raises `TypeError` and `return []` is never reached.
* An empty (after trimming) wordlist returns `[]` before any worker starts.
* `ThreadPoolExecutor(max_workers=num_threads)` (line 88) raises
  `ValueError` when `num_threads ≤ 0`.
* Otherwise every queued word is dequeued by exactly one worker, the worker
  resolves `word + "." + domain`, and each resolved subdomain is offered to
  the sink; the offers interleave according to `evs`. -/
def brute_force_subdomains (net : String → Rat → DnsOutcome) (globalTimeout : Rat)
    (fs : String → FsFile) (domain wordlist_path : String) (num_threads : Int)
    (timeout : Rat) (verbose : Bool) (evs : List Ev) :
    Except PyErr (List String) × List ExtAction :=
  match fs wordlist_path with
  | .missing =>
      if bindsKeyword print_message_params "file" then (.ok [], [])
      else (.error (.typeError "print_message" "file"), [])
  | .unreadable _ =>
      if bindsKeyword print_message_params "file" then (.ok [], [])
      else (.error (.typeError "print_message" "file"), [])
  | .lines ls =>
      let words := loadWords ls
      if words.isEmpty then (.ok [], [])
      else if num_threads ≤ 0 then
        (.error (.valueError "max_workers must be greater than 0"), [])
      else
        let offs := words.filterMap fun word =>
          let subdomain := word ++ "." ++ domain
          if (resolve_subdomain net globalTimeout subdomain timeout verbose).1.isSome
          then some subdomain else none
        (.ok (execOffers offs evs).results_list,
         words.map fun word => .dnsLookup (word ++ "." ++ domain))

/-- Body of a crt.sh HTTP response, after `response.raise_for_status()`:
either a JSON array of certificate entries (each entry's `name_value` field,
absent modelled as `none` and read back as `''` by `entry.get`), or text that
fails to parse as JSON (`ValueError`). -/
inductive JsonBody : Type
  | entries (es : List (Option String))
  | parseFailure (text : String)

/-- What one `requests.get` against crt.sh can produce: a body, or a
`requests.exceptions.RequestException` (connection error, HTTP error status,
request timeout). -/
inductive HttpResult : Type
  | success (body : JsonBody)
  | requestError (detail : String)

/-- The crt.sh query URL (finder.py line 14, formatted at line 110). -/
def CRTSH_URL (domain : String) : String :=
  "https://crt.sh/?q=%." ++ domain ++ "&output=json"

/-- The retention test of finder.py line 125 for one stripped name `sub`:
`sub and domain in sub and sub != domain and not sub.startswith('*.')`. -/
def crtshKeeps (domain sub : String) : Bool :=
  sub ≠ "" && pyContains sub domain && sub ≠ domain && !pyStartsWith sub "*."

/-- Names retained from one `name_value` field (finder.py lines 119-126):
split on newlines, strip each part, keep those passing `crtshKeeps`. -/
def entryNames (domain : String) (name_value : String) : List String :=
  ((pySplitNl name_value).map pyStrip).filter (crtshKeeps domain)

/-- Model of `fetch_crtsh_subdomains` (finder.py lines 103-137), over an HTTP oracle.
Returns the Python call's value (list of unique retained names in first-seen
order, or the exception raised) with the trace of HTTP requests.

Both `except` handlers (lines 128-133) call
`print_message(..., file=sys.stderr)`; `print_message` has no `file`
parameter, so on a request or parse failure the handler itself raises
`TypeError` instead of degrading to an empty result. -/
def fetch_crtsh_subdomains (http : String → HttpResult) (domain : String)
    (verbose : Bool) : Except PyErr (List String) × List ExtAction :=
  let url := CRTSH_URL domain
  match http url with
  | .requestError _ =>
      if bindsKeyword print_message_params "file" then (.ok [], [.httpGet url])
      else (.error (.typeError "print_message" "file"), [.httpGet url])
  | .success (.parseFailure _) =>
      if bindsKeyword print_message_params "file" then (.ok [], [.httpGet url])
      else (.error (.typeError "print_message" "file"), [.httpGet url])
  | .success (.entries es) =>
      (.ok (es.foldl (fun acc e => setAddAll acc (entryNames domain (e.getD ""))) []),
       [.httpGet url])

/-- Parsed command-line arguments of the program (finder.py lines 140-148). -/
structure Args : Type where
  domain : String
  wordlist : Option String
  output : Option String
  threads : Int
  timeout : Rat
  passive_only : Bool
  active_only : Bool
  verbose : Bool

/-- The external world `main` runs against: DNS, filesystem reads, HTTP, and
file writes (`writeFile p = some detail` means opening/writing `p` raises
`IOError detail`). -/
structure World : Type where
  net : String → Rat → DnsOutcome
  fs : String → FsFile
  http : String → HttpResult
  writeFile : String → Option String

/-- How `main` stops: normal return, `sys.exit code`, or an uncaught
exception. -/
inductive Halt : Type
  | exited (code : Nat)
  | raised (e : PyErr)
  deriving DecidableEq, Repr

/-- Result of one call to `main`: how it stopped, the stdout lines written,
and the external actions performed. -/
structure MainRun : Type where
  halt : Option Halt
  stdout : List String
  actions : List ExtAction
  deriving Repr

/-- Set `all_found_subdomains` as accumulated in finder.py lines 175-192: a set
filled first from the passive results, then from the brute-force results. -/
def all_found (passive active : List String) : List String :=
  setAddAll (setAddAll [] passive) active

/-- Value of `sorted(list(all_found_subdomains))` (finder.py line
198): Python `sorted` on strings is lexicographic by code point, as is
`String.le`. -/
def sorted_subdomains (passive active : List String) : List String :=
  List.insertionSort (· ≤ ·) (all_found passive active)

/-- The stdout lines of finder.py lines 194-200: the "no subdomains" notice,
or the header followed by one result per line. (Both notices go through
`print_message(..., verbose=True)` with `is_verbose_msg=False`, hence always
to stdout.) -/
def result_stdout (domain : String) (passive active : List String) : List String :=
  let all := all_found passive active
  if all.isEmpty then
    outsOf (print_message ("\nNo subdomains found for " ++ domain ++ ".") true false)
  else
    outsOf (print_message ("\n--- Found " ++ toString all.length ++
      " Unique Subdomain(s) ---") true false) ++ sorted_subdomains passive active

/-- The output-file block of finder.py lines 202-209, entered only when
results were found. On success one more stdout line is written; an `IOError`
is caught, but the handler's `print_message(..., file=sys.stderr)` raises
`TypeError`. -/
def write_output (w : World) (output : Option String) (hasResults : Bool) :
    Option Halt × List String :=
  match output, hasResults with
  | some path, true =>
      match w.writeFile path with
      | none => (none, outsOf (print_message ("\nResults saved to " ++ path) true false))
      | some _ =>
          if bindsKeyword print_message_params "file" then (none, [])
          else (some (.raised (.typeError "print_message" "file")), [])
  | _, _ => (none, [])

namespace Finder

/-- Model of `main` (finder.py lines 139-212), after argument parsing, over the world
`w` and an offer schedule `evs` for the brute-force phase.

* Conflicting `--passive-only --active-only` (line 156) and `--active-only`
  without `--wordlist` (line 160) are usage errors, but their handlers call
  `print_message(..., file=sys.stderr)`, which raises `TypeError` before the
  intended `sys.exit(1)` is reached.
* Otherwise `run_passive` is true unless `--active-only`; `run_active` is
  true iff a wordlist was given and not `--passive-only` (lines 166-172).
* `socket.setdefaulttimeout(args.timeout)` (line 179) makes `args.timeout`
  the global socket timeout used by every lookup.
* The passive and active phases run; any exception they raise propagates.
* The results are merged, sorted, printed, and optionally written to the
  output file. -/
def main (w : World) (a : Args) (evs : List Ev) : MainRun :=
  if a.passive_only && a.active_only then
    if bindsKeyword print_message_params "file" then
      { halt := some (.exited 1), stdout := [], actions := [] }
    else
      { halt := some (.raised (.typeError "print_message" "file")),
        stdout := [], actions := [] }
  else if a.active_only && a.wordlist.isNone then
    if bindsKeyword print_message_params "file" then
      { halt := some (.exited 1), stdout := [], actions := [] }
    else
      { halt := some (.raised (.typeError "print_message" "file")),
        stdout := [], actions := [] }
  else
    let run_passive := !a.active_only
    let run_active := a.wordlist.isSome && !a.passive_only
    let globalTimeout := a.timeout
    let pphase :=
      if run_passive then fetch_crtsh_subdomains w.http a.domain a.verbose
      else (.ok [], [])
    match pphase with
    | (.error e, acts) => { halt := some (.raised e), stdout := [], actions := acts }
    | (.ok crtsh_results, acts1) =>
      let aphase :=
        match a.wordlist with
        | some wl =>
            if run_active then
              brute_force_subdomains w.net globalTimeout w.fs a.domain wl
                a.threads a.timeout a.verbose evs
            else (.ok [], [])
        | none => (.ok [], [])
      match aphase with
      | (.error e, acts2) =>
          { halt := some (.raised e), stdout := [], actions := acts1 ++ acts2 }
      | (.ok bruteforce_results, acts2) =>
          let lines1 := result_stdout a.domain crtsh_results bruteforce_results
          let hasResults := !(all_found crtsh_results bruteforce_results).isEmpty
          match write_output w a.output hasResults with
          | (some h, lines2) =>
              { halt := some h, stdout := lines1 ++ lines2, actions := acts1 ++ acts2 }
          | (none, lines2) =>
              { halt := none, stdout := lines1 ++ lines2, actions := acts1 ++ acts2 }

end Finder

/-- Exit status of the Python process for a given way `main` stopped:
`sys.exit n` exits with `n`; an uncaught exception prints a traceback and
exits with status 1; normal return exits 0. The `if __name__ == "__main__"`
guard (lines 215-220) catches only `KeyboardInterrupt`. -/
def process_status (h : Option Halt) : Nat :=
  match h with
  | none => 0
  | some (.exited n) => n
  | some (.raised _) => 1

/-- The `except KeyboardInterrupt` handler (finder.py lines 218-220): its own
`print_message(..., file=sys.stderr)` raises `TypeError`, so `sys.exit(1)` at
line 220 is never reached. -/
def interrupt_handler : Except PyErr Unit :=
  if bindsKeyword print_message_params "file" then .ok ()
  else .error (.typeError "print_message" "file")

/-! ## Helper lemmas -/

theorem mem_setAdd {s : List String} {x y : String} :
    y ∈ setAdd s x ↔ y ∈ s ∨ y = x := by
  unfold setAdd
  by_cases h : x ∈ s
  · simp only [if_pos h]
    constructor
    · exact Or.inl
    · rintro (h' | rfl)
      · exact h'
      · exact h
  · simp [if_neg h]

theorem nodup_setAdd {s : List String} {x : String} (h : s.Nodup) :
    (setAdd s x).Nodup := by
  unfold setAdd
  by_cases hx : x ∈ s <;> simp [hx, List.nodup_append, h]

theorem mem_setAddAll {s : List String} {xs : List String} {y : String} :
    y ∈ setAddAll s xs ↔ y ∈ s ∨ y ∈ xs := by
  induction xs generalizing s with
  | nil => simp [setAddAll]
  | cons x xs ih =>
      show y ∈ setAddAll (setAdd s x) xs ↔ _
      rw [ih, mem_setAdd]
      simp only [List.mem_cons]
      tauto

theorem nodup_setAddAll {s : List String} {xs : List String} (h : s.Nodup) :
    (setAddAll s xs).Nodup := by
  induction xs generalizing s with
  | nil => exact h
  | cons x xs ih => exact ih (nodup_setAdd h)

theorem mem_all_found {passive active : List String} {y : String} :
    y ∈ all_found passive active ↔ y ∈ passive ∨ y ∈ active := by
  unfold all_found
  rw [mem_setAddAll, mem_setAddAll]
  simp [or_comm]

theorem nodup_all_found (passive active : List String) :
    (all_found passive active).Nodup :=
  nodup_setAddAll (nodup_setAddAll List.nodup_nil)

theorem sorted_sorted_subdomains (passive active : List String) :
    (sorted_subdomains passive active).Sorted (· ≤ ·) :=
  List.sorted_insertionSort _ _

theorem perm_sorted_subdomains (passive active : List String) :
    List.Perm (sorted_subdomains passive active) (all_found passive active) :=
  List.perm_insertionSort _ _

theorem nodup_sorted_subdomains (passive active : List String) :
    (sorted_subdomains passive active).Nodup :=
  ((perm_sorted_subdomains passive active).nodup_iff).mpr (nodup_all_found passive active)

theorem mem_sorted_subdomains {passive active : List String} {y : String} :
    y ∈ sorted_subdomains passive active ↔ y ∈ passive ∨ y ∈ active := by
  rw [(perm_sorted_subdomains passive active).mem_iff, mem_all_found]

theorem foldl_serialTriples (offs : List String) :
    ∀ (m k : Nat) (st : SinkSt), (∀ i ∈ st.sawAbsent, i < k) →
    List.foldl (evStep offs) st (serialTriples k m) = seqRun offs k m st := by
  intro m
  induction m with
  | zero => intro k st _; rfl
  | succ m ih =>
    intro k st h
    have hk : k ∉ st.sawAbsent := fun hmem => lt_irrefl k (h k hmem)
    show List.foldl (evStep offs) st
      (.check k :: .add k :: .append k :: serialTriples (k+1) m) = _
    by_cases hs : offAt offs k ∈ st.found_subdomains_set
    · have e1 : evStep offs st (.check k) = st := by simp [evStep, hs]
      have e2 : evStep offs st (.add k) = st := by simp [evStep, hk]
      have e3 : evStep offs st (.append k) = st := by simp [evStep, hk]
      rw [List.foldl_cons, e1, List.foldl_cons, e2, List.foldl_cons, e3,
        ih (k+1) st (fun i hi => Nat.lt_succ_of_lt (h i hi))]
      simp [seqRun, hs]
    · have e1 : evStep offs st (.check k) = { st with sawAbsent := k :: st.sawAbsent } := by
        simp [evStep, hs]
      have e2 : evStep offs { st with sawAbsent := k :: st.sawAbsent } (.add k) =
          { st with found_subdomains_set := offAt offs k :: st.found_subdomains_set,
                    sawAbsent := k :: st.sawAbsent } := by
        simp [evStep, hs]
      have e3 : evStep offs
          { st with found_subdomains_set := offAt offs k :: st.found_subdomains_set,
                    sawAbsent := k :: st.sawAbsent } (.append k) =
          { found_subdomains_set := offAt offs k :: st.found_subdomains_set,
            results_list := st.results_list ++ [offAt offs k],
            sawAbsent := k :: st.sawAbsent } := by
        simp [evStep]
      rw [List.foldl_cons, e1, List.foldl_cons, e2, List.foldl_cons, e3]
      rw [ih (k+1) _ (by
        intro i hi
        rcases List.mem_cons.mp hi with rfl | hi'
        · exact Nat.lt_succ_self i
        · exact Nat.lt_succ_of_lt (h i hi'))]
      simp [seqRun, hs]

theorem execOffers_serial (offs : List String) :
    execOffers offs (serialSched offs.length) = seqRun offs 0 offs.length SinkSt.init :=
  foldl_serialTriples offs offs.length 0 SinkSt.init (by intro i hi; cases hi)

theorem seqRun_invariant (offs : List String) :
    ∀ (m k : Nat) (st : SinkSt),
    (∀ s, s ∈ st.found_subdomains_set ↔ s ∈ st.results_list) →
    st.results_list.Nodup →
    (seqRun offs k m st).results_list.Nodup ∧
    (∀ s, s ∈ (seqRun offs k m st).results_list ↔
      s ∈ st.results_list ∨ ∃ j, k ≤ j ∧ j < k + m ∧ offAt offs j = s) ∧
    (∀ s, s ∈ (seqRun offs k m st).found_subdomains_set ↔
      s ∈ (seqRun offs k m st).results_list) := by
  intro m
  induction m with
  | zero =>
      intro k st hmem hnd
      refine ⟨hnd, fun s => ?_, hmem⟩
      simp only [seqRun]
      constructor
      · exact Or.inl
      · rintro (hs | ⟨j, hj1, hj2, _⟩)
        · exact hs
        · omega
  | succ m ih =>
      intro k st hmem hnd
      by_cases hs : offAt offs k ∈ st.found_subdomains_set
      · have hstep : seqRun offs k (m+1) st = seqRun offs (k+1) m st := by
          simp [seqRun, hs]
        rw [hstep]
        obtain ⟨h1, h2, h3⟩ := ih (k+1) st hmem hnd
        refine ⟨h1, fun s => ?_, h3⟩
        rw [h2 s]
        constructor
        · rintro (h' | ⟨j, hj1, hj2, hj3⟩)
          · exact Or.inl h'
          · exact Or.inr ⟨j, by omega, by omega, hj3⟩
        · rintro (h' | ⟨j, hj1, hj2, hj3⟩)
          · exact Or.inl h'
          · rcases Nat.eq_or_lt_of_le hj1 with rfl | hlt
            · exact Or.inl ((hmem _).mp (hj3 ▸ hs))
            · exact Or.inr ⟨j, hlt, by omega, hj3⟩
      · have hstep : seqRun offs k (m+1) st =
            seqRun offs (k+1) m
              { found_subdomains_set := offAt offs k :: st.found_subdomains_set,
                results_list := st.results_list ++ [offAt offs k],
                sawAbsent := k :: st.sawAbsent } := by
          simp [seqRun, hs]
        rw [hstep]
        have hnotin : offAt offs k ∉ st.results_list := fun h' => hs ((hmem _).mpr h')
        obtain ⟨h1, h2, h3⟩ := ih (k+1)
          { found_subdomains_set := offAt offs k :: st.found_subdomains_set,
            results_list := st.results_list ++ [offAt offs k],
            sawAbsent := k :: st.sawAbsent }
          (by
            intro s
            simp only [List.mem_cons, List.mem_append, List.mem_singleton]
            rw [hmem s]
            tauto)
          (by simp [List.nodup_append, hnd, hnotin])
        refine ⟨h1, fun s => ?_, h3⟩
        rw [h2 s]
        simp only [List.mem_append, List.mem_singleton]
        constructor
        · rintro ((h' | h') | ⟨j, hj1, hj2, hj3⟩)
          · exact Or.inl h'
          · exact Or.inr ⟨k, le_refl k, by omega, h'.symm⟩
          · exact Or.inr ⟨j, by omega, by omega, hj3⟩
        · rintro (h' | ⟨j, hj1, hj2, hj3⟩)
          · exact Or.inl (Or.inl h')
          · rcases Nat.eq_or_lt_of_le hj1 with rfl | hlt
            · exact Or.inl (Or.inr hj3.symm)
            · exact Or.inr ⟨j, hlt, by omega, hj3⟩

theorem exists_offAt_iff {offs : List String} {s : String} :
    (∃ j, j < offs.length ∧ offAt offs j = s) ↔ s ∈ offs := by
  constructor
  · rintro ⟨j, hj, rfl⟩
    unfold offAt
    rw [List.getD_eq_getElem _ _ hj]
    exact List.getElem_mem hj
  · intro hs
    obtain ⟨j, hj, hjs⟩ := List.mem_iff_getElem.mp hs
    refine ⟨j, hj, ?_⟩
    unfold offAt
    rw [List.getD_eq_getElem _ _ hj, hjs]

theorem length_eq_of_nodup_of_mem_iff {r u : List String} (hr : r.Nodup) (hu : u.Nodup)
    (h : ∀ s, s ∈ r ↔ s ∈ u) : r.length = u.length := by
  have hf : r.toFinset = u.toFinset := Finset.ext fun s => by
    simp only [List.mem_toFinset]; exact h s
  calc r.length = r.toFinset.card := (List.toFinset_card_of_nodup hr).symm
    _ = u.toFinset.card := by rw [hf]
    _ = u.length := List.toFinset_card_of_nodup hu

theorem subdomain_of_injective (domain : String) :
    Function.Injective (fun w : String => w ++ "." ++ domain) := by
  intro a b h
  have hd : (a ++ "." ++ domain).data = (b ++ "." ++ domain).data := congrArg String.data h
  simp only [String.data_append] at hd
  have h1 := List.append_cancel_right hd
  have h2 := List.append_cancel_right h1
  cases a; cases b
  exact congrArg String.mk (by simpa using h2)

theorem loadWords_eq_filter (ls : List String) :
    loadWords ls = (ls.map pyStrip).filter (fun w => w ≠ "") := by
  unfold loadWords
  induction ls with
  | nil => rfl
  | cons l ls ih =>
      rw [List.filterMap_cons, List.map_cons, List.filter_cons]
      by_cases h : pyStrip l = "" <;> simp [h] <;> simpa using ih

theorem mem_loadWords {ls : List String} {u : String} (h : u ∈ loadWords ls) :
    u ≠ "" ∧ ∃ line ∈ ls, pyStrip line = u := by
  rw [loadWords_eq_filter] at h
  have h1 := List.mem_filter.mp h
  refine ⟨by simpa using h1.2, ?_⟩
  obtain ⟨line, hline, hstrip⟩ := List.mem_map.mp h1.1
  exact ⟨line, hline, hstrip⟩

theorem count_loadWords (ls : List String) (w : String) (hw : w ≠ "") :
    (loadWords ls).count w = (ls.map pyStrip).count w := by
  rw [loadWords_eq_filter]
  exact List.count_filter (by simpa using hw)

theorem offers_all_resolved (net : String → Rat → DnsOutcome) (g : Rat) (domain : String)
    (timeout : Rat) (verbose : Bool)
    (hres : ∀ name, ∃ ip rest, net name g = .resolved ip rest) (words : List String) :
    (words.filterMap fun word =>
        let subdomain := word ++ "." ++ domain
        if (resolve_subdomain net g subdomain timeout verbose).1.isSome
        then some subdomain else none)
      = words.map (fun word => word ++ "." ++ domain) := by
  induction words with
  | nil => rfl
  | cons w ws ih =>
      obtain ⟨ip, rest, hw⟩ := hres (w ++ "." ++ domain)
      simp only [List.filterMap_cons, List.map_cons]
      rw [ih]
      simp [resolve_subdomain, hw]

/-- C5 (amended): with every candidate resolving, a brute-force run whose
offer events do not interleave (the serial schedule; in particular any
single-worker run) yields exactly `n` discovered subdomains, where `n` is the
number of unique non-blank trimmed wordlist entries, each equal to
`candidate + "." + domain`. (Interleaved offers of duplicate candidates can
append the same subdomain twice; see the counterexample.) -/
theorem brute_force_serial_every_candidate_resolves
    (net : String → Rat → DnsOutcome) (g : Rat) (fs : String → FsFile)
    (domain path : String) (threads : Int) (timeout : Rat) (verbose : Bool)
    (ls : List String)
    (hfs : fs path = .lines ls)
    (hthreads : 0 < threads)
    (hres : ∀ name, ∃ ip rest, net name g = .resolved ip rest) :
    ∃ results,
      (brute_force_subdomains net g fs domain path threads timeout verbose
        (serialSched (loadWords ls).length)).1 = .ok results ∧
      results.Nodup ∧
      (∀ s, s ∈ results ↔ ∃ w ∈ loadWords ls, s = w ++ "." ++ domain) ∧
      results.length = (loadWords ls).dedup.length := by
  have hth : ¬ threads ≤ 0 := by omega
  by_cases hw : (loadWords ls).isEmpty
  · refine ⟨[], ?_, List.nodup_nil, ?_, ?_⟩
    · simp [brute_force_subdomains, hfs, hw]
    · intro s
      rw [List.isEmpty_iff] at hw
      simp [hw]
    · rw [List.isEmpty_iff] at hw
      simp [hw]
  · have hoffs := offers_all_resolved net g domain timeout verbose hres (loadWords ls)
    have hrun : (brute_force_subdomains net g fs domain path threads timeout verbose
        (serialSched (loadWords ls).length)).1 =
        .ok (execOffers ((loadWords ls).map (fun w => w ++ "." ++ domain))
          (serialSched (loadWords ls).length)).results_list := by
      simp only [brute_force_subdomains, hfs, hw, Bool.false_eq_true, if_false, hth,
        if_false]
      rw [hoffs]
    set offs := (loadWords ls).map (fun w => w ++ "." ++ domain) with hoffsdef
    have hlen : (loadWords ls).length = offs.length := (List.length_map _ _).symm
    have hserial : execOffers offs (serialSched (loadWords ls).length) =
        seqRun offs 0 offs.length SinkSt.init := by
      rw [hlen]; exact execOffers_serial offs
    obtain ⟨h1, h2, _⟩ := seqRun_invariant offs offs.length 0 SinkSt.init
      (fun s => Iff.rfl) List.nodup_nil
    have hmem : ∀ s, s ∈ (seqRun offs 0 offs.length SinkSt.init).results_list ↔ s ∈ offs := by
      intro s
      rw [h2 s]
      constructor
      · rintro (hs | ⟨j, _, hj2, hj3⟩)
        · cases hs
        · exact exists_offAt_iff.mp ⟨j, by omega, hj3⟩
      · intro hs
        obtain ⟨j, hj, hjs⟩ := exists_offAt_iff.mpr hs
        exact Or.inr ⟨j, by omega, by omega, hjs⟩
    refine ⟨(seqRun offs 0 offs.length SinkSt.init).results_list,
      by rw [hrun, hserial], h1, ?_, ?_⟩
    · intro s
      rw [hmem s, hoffsdef]
      rw [List.mem_map]
      constructor
      · rintro ⟨w, hw', rfl⟩; exact ⟨w, hw', rfl⟩
      · rintro ⟨w, hw', rfl⟩; exact ⟨w, hw', rfl⟩
    · have hnd : offs.dedup.Nodup := List.nodup_dedup offs
      have hle := length_eq_of_nodup_of_mem_iff h1 hnd
        (fun s => by rw [hmem s, List.mem_dedup])
      rw [hle, hoffsdef, List.dedup_map_of_injective (subdomain_of_injective domain),
        List.length_map]

/-- C5 (counterexample): the claim as stated fails on the code. The wordlist
with lines `["www", "www"]` has exactly one unique non-blank trimmed entry
(`n = 1`), every candidate resolves, yet the two-worker run in which both
membership checks precede both insertions — a valid interleaving of the
workers' offer events — returns two discovered subdomains, not `n = 1`. -/
theorem brute_force_duplicate_words_interleaved_counterexample :
    (loadWords ["www", "www"]).dedup.length = 1 ∧
    validSched 2 [.check 0, .check 1, .add 0, .append 0, .add 1, .append 1] = true ∧
    (brute_force_subdomains (fun _ _ => .resolved "203.0.113.5" []) 2
      (fun _ => FsFile.lines ["www", "www"]) "example.com" "wl.txt" 2 2 false
      [.check 0, .check 1, .add 0, .append 0, .add 1, .append 1]).1 =
      .ok ["www.example.com", "www.example.com"] ∧
    ¬ ([("www.example.com" : String), "www.example.com"].length = 1) :=
  ⟨by decide, by decide, rfl, by decide⟩

/-- C5 (witness): the amended theorem applied to a concrete world: wordlist
lines `["www", "mail", "www"]` (two unique entries), a resolver that resolves
everything, ten workers, serial offers. -/
theorem brute_force_serial_every_candidate_resolves_witness :
    ∃ results,
      (brute_force_subdomains (fun _ _ => .resolved "203.0.113.5" []) 2
        (fun _ => FsFile.lines ["www", "mail", "www"]) "example.com" "words.txt"
        10 2 false (serialSched (loadWords ["www", "mail", "www"]).length)).1 =
        .ok results ∧
      results.Nodup ∧
      (∀ s, s ∈ results ↔
        ∃ w ∈ loadWords ["www", "mail", "www"], s = w ++ "." ++ "example.com") ∧
      results.length = (loadWords ["www", "mail", "www"]).dedup.length :=
  brute_force_serial_every_candidate_resolves _ 2 _ "example.com" "words.txt" 10 2 false
    ["www", "mail", "www"] rfl (by omega) (fun _ => ⟨"203.0.113.5", [], rfl⟩)

/-- C9 (amended): offering the same subdomain twice to the result sink
increases the final snapshot size by exactly one provided the two offers'
check-insert-append sequences do not interleave (the serial schedule): the
snapshot is exactly `[s]`. When the two membership checks both run before the
insertions, the subdomain is appended twice; see the counterexample. -/
theorem sink_serial_offer_dedup (s : String) :
    (execOffers [s, s] (serialSched 2)).results_list = [s] ∧
    (execOffers [s, s] (serialSched 2)).results_list.length = 1 := by
  have h : (execOffers [s, s] (serialSched 2)).results_list = [s] := by
    rw [show serialSched 2 = serialSched (List.length [s, s]) from rfl,
      execOffers_serial]
    simp [seqRun, offAt, SinkSt.init]
  exact ⟨h, by rw [h]; rfl⟩

/-- C9 (counterexample): under the interleaving in which both workers'
membership checks (line 54) run before either insertion (lines 55-56) — a
valid schedule of the two offers' events — the same subdomain is appended to
`results_list` twice: the snapshot grows by two, with a duplicate entry. -/
theorem sink_interleaved_duplicate_counterexample :
    validSched 2 [.check 0, .check 1, .add 0, .append 0, .add 1, .append 1] = true ∧
    (execOffers ["api.example.com", "api.example.com"]
      [.check 0, .check 1, .add 0, .append 0, .add 1, .append 1]).results_list =
      ["api.example.com", "api.example.com"] ∧
    ¬ ((execOffers ["api.example.com", "api.example.com"]
      [.check 0, .check 1, .add 0, .append 0, .add 1, .append 1]).results_list.length = 1) :=
  ⟨by decide, by decide, by decide⟩

/-- C1: when the wordlist cannot be opened (missing or unreadable), the engine
starts no workers and performs no DNS lookups (empty action trace) — but
instead of returning the empty result, the handler's
`print_message(..., file=sys.stderr)` raises `TypeError`, because
`print_message` has no `file` parameter. Evaluated at a missing path and at an
unreadable path. -/
theorem brute_force_unopenable_wordlist_raises :
    brute_force_subdomains (fun _ _ => .resolved "203.0.113.5" []) 2
      (fun _ => FsFile.missing) "example.com" "/no/such/wordlist.txt" 10 2 false [] =
      (.error (.typeError "print_message" "file"), []) ∧
    brute_force_subdomains (fun _ _ => .resolved "203.0.113.5" []) 2
      (fun _ => FsFile.unreadable "Permission denied") "example.com"
      "/root/secret.txt" 10 2 false [] =
      (.error (.typeError "print_message" "file"), []) :=
  ⟨rfl, rfl⟩

/-- C2 (counterexample): duplicates are not removed from the wordlist. With
input lines `["www", "www"]`, the distinct trimmed non-blank line `"www"` is
enqueued twice, not exactly once. -/
theorem loadWords_duplicate_lines_counterexample :
    loadWords ["www", "www"] = ["www", "www"] ∧
    ¬ ((loadWords ["www", "www"]).count "www" = 1) :=
  ⟨rfl, by decide⟩

/-- C2 (amended): the enqueued candidate sequence is the trimmed non-blank
lines in file order with duplicates retained: each non-blank value occurs
exactly as many times as input lines trimming to it (at least once when it
comes from the wordlist), and every enqueued candidate is non-blank and the
trim of some input line. -/
theorem loadWords_trimmed_nonblank_duplicates_kept (ls : List String) :
    (∀ w, w ≠ "" → (loadWords ls).count w = (ls.map pyStrip).count w) ∧
    (∀ u ∈ loadWords ls, u ≠ "" ∧ ∃ line ∈ ls, pyStrip line = u) :=
  ⟨fun w hw => count_loadWords ls w hw, fun _ hu => mem_loadWords hu⟩

/-- C2 (witness): the amended theorem at the concrete wordlist
`["  www ", "", "www", "mail"]`. -/
theorem loadWords_trimmed_nonblank_duplicates_kept_witness :
    (loadWords ["  www ", "", "www", "mail"]).count "www" =
      ((["  www ", "", "www", "mail"].map pyStrip).count "www") ∧
    ("mail" ≠ "" ∧ ∃ line ∈ ["  www ", "", "www", "mail"], pyStrip line = "mail") :=
  ⟨(loadWords_trimmed_nonblank_duplicates_kept _).1 "www" (by decide),
   (loadWords_trimmed_nonblank_duplicates_kept ["  www ", "", "www", "mail"]).2
     "mail" (by decide)⟩

/-- C3 (counterexample): `worker_count = 0` is not corrected to 1. With a
one-word wordlist and a resolver that resolves everything, the zero-thread
run raises `ValueError` from `ThreadPoolExecutor(max_workers=0)` while the
one-thread run returns `["www.example.com"]`. -/
theorem brute_force_zero_threads_counterexample :
    (brute_force_subdomains (fun _ _ => .resolved "203.0.113.5" []) 2
      (fun _ => FsFile.lines ["www"]) "example.com" "wl.txt" 0 2 false []).1 =
      .error (.valueError "max_workers must be greater than 0") ∧
    (brute_force_subdomains (fun _ _ => .resolved "203.0.113.5" []) 2
      (fun _ => FsFile.lines ["www"]) "example.com" "wl.txt" 1 2 false
      (serialSched 1)).1 = .ok ["www.example.com"] :=
  ⟨rfl, rfl⟩

/-- C3 (amended): for every `worker_count ≤ 0`, once a non-empty wordlist has
been loaded, the engine raises `ValueError` (`ThreadPoolExecutor` rejects
`max_workers ≤ 0`) instead of degrading to a single-worker run. -/
theorem brute_force_nonpositive_threads_valueerror
    (net : String → Rat → DnsOutcome) (g : Rat) (fs : String → FsFile)
    (domain path : String) (threads : Int) (timeout : Rat) (verbose : Bool)
    (evs : List Ev) (ls : List String)
    (hfs : fs path = .lines ls) (hne : loadWords ls ≠ [])
    (hthreads : threads ≤ 0) :
    brute_force_subdomains net g fs domain path threads timeout verbose evs =
      (.error (.valueError "max_workers must be greater than 0"), []) := by
  have hw : (loadWords ls).isEmpty = false := by
    cases h : loadWords ls with
    | nil => exact absurd h hne
    | cons a as => rfl
  simp [brute_force_subdomains, hfs, hw, hthreads]

/-- C3 (witness): the amended theorem at zero threads and wordlist `["www"]`. -/
theorem brute_force_nonpositive_threads_valueerror_witness :
    brute_force_subdomains (fun _ _ => DnsOutcome.gaierror) 2
      (fun _ => FsFile.lines ["www"]) "example.com" "wl.txt" 0 2 false [] =
      (.error (.valueError "max_workers must be greater than 0"), []) :=
  brute_force_nonpositive_threads_valueerror _ 2 _ "example.com" "wl.txt" 0 2 false []
    ["www"] rfl (by decide) (by omega)

/-- C4 (counterexample): a resolver environment in which a lookup bound to
timeout 1 times out while one bound to timeout 2 resolves; the process-global
default timeout is 2 and `resolve_subdomain` is called with per-call timeout
1. The claim predicts the `TimedOut` outcome (the lookup, bound to the
per-call timeout 1, exceeds it); the code returns `Resolved`, because the
per-call timeout argument never reaches the lookup. -/
theorem resolve_per_call_timeout_counterexample :
    ((fun _ t => if t < 2 then DnsOutcome.timedout else .resolved "93.184.216.34" [])
      "www.example.com" (1 : Rat)) = .timedout ∧
    (resolve_subdomain
      (fun _ t => if t < 2 then DnsOutcome.timedout else .resolved "93.184.216.34" [])
      2 "www.example.com" 1 false).1 = some "www.example.com" :=
  ⟨rfl, rfl⟩

/-- C4 (amended): the per-call `timeout` argument of `resolve_subdomain` does
not govern the lookup — the result is invariant in it. The lookup is bound by
the process-global default socket timeout `g` (set by `main` from
`--timeout`), and when that global-timeout-bound lookup times out the outcome
is `TimedOut`: `None` with the timeout diagnostic. -/
theorem resolve_subdomain_global_timeout
    (net : String → Rat → DnsOutcome) (g : Rat) (s : String) (t₁ t₂ : Rat) (v : Bool) :
    resolve_subdomain net g s t₁ v = resolve_subdomain net g s t₂ v ∧
    (net s g = .timedout →
      resolve_subdomain net g s t₁ v =
        (none, print_message ("Timeout resolving: " ++ s) v true)) :=
  ⟨rfl, fun h => by simp [resolve_subdomain, h]⟩

/-- C4 (witness): the amended theorem at a concrete always-timing-out
environment, per-call timeouts 1 and 5, global timeout 2. -/
theorem resolve_subdomain_global_timeout_witness :
    resolve_subdomain (fun _ _ => DnsOutcome.timedout) 2 "www.example.com" 1 true =
      resolve_subdomain (fun _ _ => DnsOutcome.timedout) 2 "www.example.com" 5 true ∧
    resolve_subdomain (fun _ _ => DnsOutcome.timedout) 2 "www.example.com" 1 true =
      (none, print_message ("Timeout resolving: " ++ "www.example.com") true true) :=
  ⟨(resolve_subdomain_global_timeout _ 2 "www.example.com" 1 5 true).1,
   (resolve_subdomain_global_timeout _ 2 "www.example.com" 1 5 true).2 rfl⟩

/-- C6: the passive fetcher retains a candidate name from a `name_value`
entry iff the trimmed name is non-empty, textually contains the target
domain, is not exactly the domain, and does not start with `*.`; and on the
entry `"a.example.com\n*.example.com\nexample.com"` for `example.com` the
retained set is exactly `{"a.example.com"}` (also through the full fetch over
a one-entry response). -/
theorem crtsh_retention_characterisation :
    (∀ domain name_value s,
      s ∈ entryNames domain name_value ↔
        ((∃ raw ∈ pySplitNl name_value, pyStrip raw = s) ∧
          s ≠ "" ∧ pyContains s domain = true ∧ s ≠ domain ∧
          pyStartsWith s "*." = false)) ∧
    entryNames "example.com" "a.example.com\n*.example.com\nexample.com" =
      ["a.example.com"] ∧
    (fetch_crtsh_subdomains
      (fun _ => .success (.entries [some "a.example.com\n*.example.com\nexample.com"]))
      "example.com" false).1 = .ok ["a.example.com"] := by
  refine ⟨?_, rfl, rfl⟩
  intro domain nv s
  unfold entryNames
  rw [List.mem_filter]
  constructor
  · rintro ⟨hmem, hkeep⟩
    obtain ⟨raw, hraw, rfl⟩ := List.mem_map.mp hmem
    refine ⟨⟨raw, hraw, rfl⟩, ?_⟩
    have h' := hkeep
    simp only [crtshKeeps, Bool.and_eq_true, decide_eq_true_eq, Bool.not_eq_true',
      ne_eq] at h'
    exact ⟨h'.1.1.1, h'.1.1.2, h'.1.2, h'.2⟩
  · rintro ⟨⟨raw, hraw, hstrip⟩, hcond⟩
    refine ⟨List.mem_map.mpr ⟨raw, hraw, hstrip⟩, ?_⟩
    simp [crtshKeeps, hcond.1, hcond.2.1, hcond.2.2.1, hcond.2.2.2]

/-- C7: for every pair of passive and active result sets, the final result
printed to stdout is exactly their union with duplicates removed, sorted
lexicographically, one entry per line (after the count-header line that
accompanies a non-empty result). -/
theorem final_output_sorted_dedup_union (domain : String) (passive active : List String) :
    (sorted_subdomains passive active).Sorted (· ≤ ·) ∧
    (sorted_subdomains passive active).Nodup ∧
    (∀ s, s ∈ sorted_subdomains passive active ↔ s ∈ passive ∨ s ∈ active) ∧
    (all_found passive active ≠ [] →
      result_stdout domain passive active =
        ("\n--- Found " ++ toString (all_found passive active).length ++
          " Unique Subdomain(s) ---") :: sorted_subdomains passive active) := by
  refine ⟨sorted_sorted_subdomains passive active, nodup_sorted_subdomains passive active,
    fun s => mem_sorted_subdomains, ?_⟩
  intro hne
  have h : (all_found passive active).isEmpty = false := by
    cases h' : all_found passive active with
    | nil => exact absurd h' hne
    | cons a as => rfl
  simp [result_stdout, h, outsOf, print_message]

/-- C7 (witness): the theorem at a concrete passive/active pair with
overlapping, unsorted inputs. -/
theorem final_output_sorted_dedup_union_witness :
    result_stdout "example.com" ["b.example.com", "a.example.com"] ["a.example.com"] =
      ("\n--- Found " ++ toString (all_found ["b.example.com", "a.example.com"]
        ["a.example.com"]).length ++ " Unique Subdomain(s) ---") ::
        sorted_subdomains ["b.example.com", "a.example.com"] ["a.example.com"] :=
  (final_output_sorted_dedup_union "example.com" ["b.example.com", "a.example.com"]
    ["a.example.com"]).2.2.2 (by decide)

/-- C8: with both `--passive-only` and `--active-only` given, the run raises
`TypeError` from `print_message(..., file=sys.stderr)` before reaching
`sys.exit(1)`: nothing is printed to stdout, no HTTP request or DNS lookup is
performed (empty action trace), and the process exits with status 1 — via the
interpreter's uncaught-exception traceback, not the intended usage-error
message. -/
theorem conflicting_mode_flags_raise :
    Finder.main
      { net := fun _ _ => .resolved "203.0.113.5" [],
        fs := fun _ => .lines ["www"],
        http := fun _ => .success (.entries [some "a.example.com"]),
        writeFile := fun _ => none }
      { domain := "example.com", wordlist := some "words.txt", output := none,
        threads := 10, timeout := 2, passive_only := true, active_only := true,
        verbose := false } [] =
      { halt := some (.raised (.typeError "print_message" "file")),
        stdout := [], actions := [] } ∧
    process_status (some (.raised (.typeError "print_message" "file"))) = 1 :=
  ⟨rfl, rfl⟩

/-- C10: `print_message` accepts only `(message, verbose, is_verbose_msg)`,
so a `file` keyword argument never binds and the call raises `TypeError`;
consequently each non-verbose error-reporting path raises `TypeError` instead
of printing its diagnostic: missing wordlist, unreadable wordlist, crt.sh
request failure, crt.sh parse failure, both usage-error paths of `main`, the
output-file write failure (shown on a concrete world), and the
`KeyboardInterrupt` handler. -/
theorem print_message_file_kwarg_typeerror :
    bindsKeyword print_message_params "file" = false ∧
    (∀ net g fs domain path threads timeout verbose evs, fs path = FsFile.missing →
      (brute_force_subdomains net g fs domain path threads timeout verbose evs).1 =
        .error (.typeError "print_message" "file")) ∧
    (∀ net g fs domain path threads timeout verbose evs detail,
      fs path = FsFile.unreadable detail →
      (brute_force_subdomains net g fs domain path threads timeout verbose evs).1 =
        .error (.typeError "print_message" "file")) ∧
    (∀ http domain verbose detail, http (CRTSH_URL domain) = .requestError detail →
      (fetch_crtsh_subdomains http domain verbose).1 =
        .error (.typeError "print_message" "file")) ∧
    (∀ http domain verbose text,
      http (CRTSH_URL domain) = .success (.parseFailure text) →
      (fetch_crtsh_subdomains http domain verbose).1 =
        .error (.typeError "print_message" "file")) ∧
    (∀ w a evs, a.passive_only = true → a.active_only = true →
      (Finder.main w a evs).halt = some (.raised (.typeError "print_message" "file"))) ∧
    (∀ w a evs, a.active_only = true → a.wordlist = none →
      (Finder.main w a evs).halt = some (.raised (.typeError "print_message" "file"))) ∧
    (Finder.main
      { net := fun _ _ => .gaierror, fs := fun _ => .lines [],
        http := fun _ => .success (.entries [some "a.example.com"]),
        writeFile := fun _ => some "Read-only file system" }
      { domain := "example.com", wordlist := none, output := some "out.txt",
        threads := 10, timeout := 2, passive_only := false, active_only := false,
        verbose := false } []).halt =
      some (.raised (.typeError "print_message" "file")) ∧
    interrupt_handler = .error (.typeError "print_message" "file") := by
  have hb : bindsKeyword print_message_params "file" = false := rfl
  refine ⟨rfl, ?_, ?_, ?_, ?_, ?_, ?_, rfl, rfl⟩
  · intro net g fs domain path threads timeout verbose evs h
    simp [brute_force_subdomains, h, hb]
  · intro net g fs domain path threads timeout verbose evs detail h
    simp [brute_force_subdomains, h, hb]
  · intro http domain verbose detail h
    simp [fetch_crtsh_subdomains, h, hb]
  · intro http domain verbose text h
    simp [fetch_crtsh_subdomains, h, hb]
  · intro w a evs h1 h2
    simp [Finder.main, h1, h2, hb]
  · intro w a evs h1 h2
    rcases Bool.eq_false_or_eq_true a.passive_only with hp | hp
    · have hcond1 : (a.passive_only && a.active_only) = true := by rw [hp, h1]; rfl
      simp [Finder.main, hcond1, hb]
    · have hcond1 : (a.passive_only && a.active_only) = false := by rw [hp]; rfl
      have hcond2 : (a.active_only && a.wordlist.isNone) = true := by rw [h1, h2]; rfl
      simp [Finder.main, hcond1, hcond2, hb]

/-- C10 (witness): two of the error paths evaluated concretely through the
theorem: a missing wordlist, and a crt.sh request failure. -/
theorem print_message_file_kwarg_typeerror_witness :
    (brute_force_subdomains (fun _ _ => DnsOutcome.gaierror) 2 (fun _ => FsFile.missing)
      "example.com" "missing.txt" 10 2 false []).1 =
      .error (.typeError "print_message" "file") ∧
    (fetch_crtsh_subdomains (fun _ => HttpResult.requestError "connection refused")
      "example.com" false).1 = .error (.typeError "print_message" "file") :=
  ⟨print_message_file_kwarg_typeerror.2.1 _ 2 _ "example.com" "missing.txt" 10 2 false [] rfl,
   print_message_file_kwarg_typeerror.2.2.2.1 _ "example.com" false "connection refused" rfl⟩
